import Mathlib

/-!
Verification of the agentic-bartender backend's agent core
(`apps/backend/src/infra/agent_core/` and `apps/backend/src/domain/agent_models.py`).

The Python source is embedded shallowly:
* JSON values decoded by `json.loads` become the inductive `Json`;
* pydantic model validation (`AgentActionSchema`, `DrinkRecipeSchema`,
  `DrinkIngredient`) becomes `Option`-valued validators;
* the intent selector, prompt composer, prototype registry and the
  `AgenticEngine.run` pipeline become pure functions;
* the Supabase vector search becomes a pure function over explicitly
  supplied fetch outcomes, with the external embedding service and
  sklearn's `cosine_similarity` kernel passed in as function parameters
  (they are third-party calls, outside the repository);
* raised exceptions become `Except`/`Option` error values.

Machine floats from the Python side are modelled as `Rat`.
-/

/-! ## Character-level string operations

Python's `in`, `str.lower`, `str.endswith` and `<=` on `str` are modelled
on the underlying character lists so that everything reduces in the kernel.
The repository only ever feeds ASCII keyword data through these paths.
-/

/-- Test whether `needle` occurs at the start of `hay` (Python `str.startswith`). -/
def charsStartWith : List Char → List Char → Bool
  | _, [] => true
  | [], _ :: _ => false
  | a :: as, b :: bs => a == b && charsStartWith as bs

/-- Test whether `needle` occurs somewhere in `hay` (Python `needle in hay`). -/
def charsContain (hay needle : List Char) : Bool :=
  match hay with
  | [] => charsStartWith [] needle
  | _ :: t => charsStartWith hay needle || charsContain t needle

/-- ASCII lowering of one character (the repository's keyword matching only
involves ASCII, where Python `str.lower` agrees with this). -/
def lowerChar (c : Char) : Char :=
  if 'A' ≤ c && c ≤ 'Z' then Char.ofNat (c.toNat + 32) else c

/-- Python `s.lower()` restricted to ASCII. -/
def strLower (s : String) : String :=
  String.mk (s.data.map lowerChar)

/-- Python `sub in s` on strings. -/
def strContains (s sub : String) : Bool :=
  charsContain s.data sub.data

/-- Python `s.endswith(t)`. -/
def strEndsWith (s t : String) : Bool :=
  charsStartWith s.data.reverse t.data.reverse

/-- Lexicographic `<=` by code point on character lists (Python string order). -/
def charsLe : List Char → List Char → Bool
  | [], _ => true
  | _ :: _, [] => false
  | a :: as, b :: bs => if a = b then charsLe as bs else decide (a < b)

/-- Python `s <= t` on strings (used by `sorted` over dict keys). -/
def strLe (s t : String) : Bool :=
  charsLe s.data t.data

/-- Python `sep.join(parts)`. -/
def joinSep (sep : String) : List String → String
  | [] => ""
  | [s] => s
  | s :: t :: rest => s ++ sep ++ joinSep sep (t :: rest)

/-! ## JSON values (outputs of `json.loads`) -/

/-- A decoded JSON value. Numbers are modelled as `Rat` (Python would hold an
`int` or a `float`). Objects keep their fields as an association list; values
produced by `json.loads` have unique keys (for duplicate keys in the raw text
the last occurrence wins, hence lookup scans from the right). -/
inductive Json where
  | null
  | bool (b : Bool)
  | num (q : Rat)
  | str (s : String)
  | arr (elems : List Json)
  | obj (fields : List (String × Json))

/-- Python dict lookup on a decoded JSON object (last duplicate key wins). -/
def jsonLookup (fields : List (String × Json)) (k : String) : Option Json :=
  match fields.reverse.find? (fun p => p.1 == k) with
  | some p => some p.2
  | none => none

mutual
/-- Python `repr` of a decoded JSON value, as it appears inside the `str()`
rendering of a containing dict or list. String escaping and float formatting
are approximated (the flattening claims only exercise string values). -/
def pyRepr : Json → String
  | .null => "None"
  | .bool true => "True"
  | .bool false => "False"
  | .num q => if q.den = 1 then toString q.num else toString q.num ++ "/" ++ toString q.den
  | .str s => "\x27" ++ s ++ "\x27"
  | .arr xs => "[" ++ joinSep ", " (pyReprList xs) ++ "]"
  | .obj fs => "\x7b" ++ joinSep ", " (pyReprFields fs) ++ "\x7d"

def pyReprList : List Json → List String
  | [] => []
  | x :: xs => pyRepr x :: pyReprList xs

def pyReprFields : List (String × Json) → List String
  | [] => []
  | (k, v) :: fs => ("\x27" ++ k ++ "\x27: " ++ pyRepr v) :: pyReprFields fs
end

/-- Python `str()` of a decoded JSON value. -/
def pyStr : Json → String
  | .str s => s
  | v => pyRepr v

/-! ## `AgentActionSchema.flatten_reasoning` (domain/agent_models.py) -/

/-- Model of `AgentActionSchema.flatten_reasoning`: a dict value is flattened by
walking its keys in sorted order, keeping string values as-is, rendering
nested dict values with `str()`, skipping values of any other type, and
joining with a single space; every other value is passed through `str()`. -/
def flatten_reasoning (v : Json) : String :=
  match v with
  | .obj fields =>
    let sortedFields :=
      List.insertionSort (fun a b : String × Json => strLe a.1 b.1 = true) fields
    let parts := sortedFields.foldr
      (fun p acc =>
        match p.2 with
        | .str s => s :: acc
        | .obj nested => pyStr (.obj nested) :: acc
        | _ => acc) []
    joinSep " " parts
  | other => pyStr other

/-! ## pydantic validation of the Action Schema (domain/agent_models.py) -/

/-- The `ActionType` enum. -/
inductive ActionType where
  | create_drink
  | search_drink
  | suggest_drink
deriving DecidableEq

/-- A `DrinkIngredient` after successful validation. -/
structure DrinkIngredient where
  name : String
  amount : Rat
  color : String
  unit : String
deriving DecidableEq

/-- A `DrinkRecipeSchema` after successful validation. -/
structure DrinkRecipeSchema where
  name : String
  description : String
  ingredients : List DrinkIngredient
  instructions : List String
  glass_type : String
  garnish : Option String
  has_ice : Bool
deriving DecidableEq

/-- An `AgentActionSchema` after successful validation. The `created_at` and
`updated_at` datetimes are kept as their raw strings (datetime parsing is a
pydantic-library concern not exercised by any claim). -/
structure AgentActionSchema where
  id : String
  name : String
  created_at : String
  updated_at : String
  action_type : Option ActionType
  confidence : Rat
  reasoning : String
  conversation : String
  drink_recipe : Option DrinkRecipeSchema
  suggest_drink : Option DrinkRecipeSchema
deriving DecidableEq

/-- The regex `^#(?:[0-9a-fA-F]{3}){1,2}$` on `DrinkIngredient.color`. -/
def isHexColor (s : String) : Bool :=
  match s.data with
  | '#' :: rest =>
    (rest.length = 3 || rest.length = 6) &&
      rest.all (fun c =>
        ('0' ≤ c && c ≤ '9') || ('a' ≤ c && c ≤ 'f') || ('A' ≤ c && c ≤ 'F'))
  | _ => false

/-- Validation of one `DrinkIngredient` from a decoded JSON value: each field
is required, `name`/`color`/`unit` must be strings, `amount` a number, with
the `Field` constraints `1 <= len(name) <= 100`, `amount >= 0.01`, the hex
color pattern, and `1 <= len(unit) <= 20`. -/
def validateIngredient (j : Json) : Option DrinkIngredient :=
  match j with
  | .obj f =>
    match jsonLookup f "name", jsonLookup f "amount",
          jsonLookup f "color", jsonLookup f "unit" with
    | some (.str name), some (.num amount), some (.str color), some (.str unit) =>
      if 1 ≤ name.data.length ∧ name.data.length ≤ 100 ∧
         mkRat 1 100 ≤ amount ∧
         isHexColor color = true ∧
         1 ≤ unit.data.length ∧ unit.data.length ≤ 20
      then some ⟨name, amount, color, unit⟩
      else none
    | _, _, _, _ => none
  | _ => none

/-- Validate every element of the decoded `ingredients` array. -/
def validateIngredients : List Json → Option (List DrinkIngredient)
  | [] => some []
  | j :: rest =>
    match validateIngredient j, validateIngredients rest with
    | some i, some is => some (i :: is)
    | _, _ => none

/-- Each instruction must be a string (no further constraint on items). -/
def validateInstructions : List Json → Option (List String)
  | [] => some []
  | .str s :: rest =>
    match validateInstructions rest with
    | some ss => some (s :: ss)
    | none => none
  | _ :: _ => none

/-- Field `glass_type: str = Field(default="rocks glass")` — absent key defaults,
a present value must be a string; there is no enum or length constraint. -/
def glassTypeField (f : List (String × Json)) : Option String :=
  match jsonLookup f "glass_type" with
  | none => some "rocks glass"
  | some (.str s) => some s
  | some _ => none

/-- Field `garnish: str = Field(default=None, max_length=100)` — absent key yields
the (unvalidated) default `None`; a present value must be a string of at most
100 characters, and in particular an explicit JSON `null` is rejected because
the annotation is `str`. -/
def garnishField (f : List (String × Json)) : Option (Option String) :=
  match jsonLookup f "garnish" with
  | none => some none
  | some (.str s) => if s.data.length ≤ 100 then some (some s) else none
  | some _ => none

/-- Field `has_ice: bool = Field(default=True)`. -/
def hasIceField (f : List (String × Json)) : Option Bool :=
  match jsonLookup f "has_ice" with
  | none => some true
  | some (.bool b) => some b
  | some _ => none

/-- Validation of `DrinkRecipeSchema` from a decoded JSON value. -/
def validateRecipe (j : Json) : Option DrinkRecipeSchema :=
  match j with
  | .obj f =>
    match jsonLookup f "name", jsonLookup f "description",
          jsonLookup f "ingredients", jsonLookup f "instructions" with
    | some (.str name), some (.str description),
        some (.arr ingJson), some (.arr instrJson) =>
      match validateIngredients ingJson, validateInstructions instrJson,
            glassTypeField f, garnishField f, hasIceField f with
      | some ingredients, some instructions, some glass, some garnish, some ice =>
        if 1 ≤ name.data.length ∧ name.data.length ≤ 100 ∧
           description.data.length ≤ 500 ∧
           ingredients ≠ [] ∧ instructions ≠ []
        then some ⟨name, description, ingredients, instructions, glass, garnish, ice⟩
        else none
      | _, _, _, _, _ => none
    | _, _, _, _ => none
  | _ => none

/-- Field `action_type: ActionType | None` — the key is required; its value may be
`null` or one of the three enum member values. -/
def parseActionType : Json → Option (Option ActionType)
  | .null => some none
  | .str s =>
    if s = "create_drink" then some (some .create_drink)
    else if s = "search_drink" then some (some .search_drink)
    else if s = "suggest_drink" then some (some .suggest_drink)
    else none
  | _ => none

/-- Field `drink_recipe: DrinkRecipeSchema | None = None` (same for
`suggest_drink`) — absent key or explicit `null` yields `None`, otherwise the
value must validate as a recipe. -/
def optRecipeField (f : List (String × Json)) (k : String) :
    Option (Option DrinkRecipeSchema) :=
  match jsonLookup f k with
  | none => some none
  | some .null => some none
  | some j =>
    match validateRecipe j with
    | some r => some (some r)
    | none => none

/-- Validation of `AgentActionSchema` from a decoded JSON value, including
the `mode='before'` `flatten_reasoning` validator on the `reasoning` field:
the raw value (of any JSON shape) is flattened to a string first, and the
`max_length=1000` constraint is checked on the flattened result. -/
def validateAgentAction (j : Json) : Option AgentActionSchema :=
  match j with
  | .obj f =>
    match jsonLookup f "id", jsonLookup f "name",
          jsonLookup f "created_at", jsonLookup f "updated_at" with
    | some (.str id), some (.str name), some (.str ca), some (.str ua) =>
      match (jsonLookup f "action_type").bind parseActionType,
            jsonLookup f "confidence", jsonLookup f "reasoning",
            jsonLookup f "conversation" with
      | some actionType, some (.num confidence), some rawReasoning,
          some (.str conversation) =>
        match optRecipeField f "drink_recipe", optRecipeField f "suggest_drink" with
        | some recipe, some suggestion =>
          if 0 ≤ confidence ∧ confidence ≤ 1 ∧
             (flatten_reasoning rawReasoning).data.length ≤ 1000 ∧
             conversation.data.length ≤ 1000
          then some ⟨id, name, ca, ua, actionType, confidence,
                     flatten_reasoning rawReasoning, conversation, recipe, suggestion⟩
          else none
        | _, _ => none
      | _, _, _, _ => none
    | _, _, _, _ => none
  | _ => none

/-! ## Intent selector (`AgenticEngine._default_selector`, engine.py) -/

/-- The drink-request keyword list of `_default_selector`. -/
def drinkKeywords : List String :=
  ["make me", "create", "prepare", "mix", "mix me", "build",
   "recommend", "i want", "i\x27d like"]

/-- Model of `AgenticEngine._default_selector`: rule-based template choice,
with the drink-keyword rule evaluated first and the question rules last. -/
def defaultSelector (userInput : String) : String :=
  if drinkKeywords.any (fun k => strContains (strLower userInput) k) then
    "action_generation"
  else if strContains (strLower userInput) "summarize" then
    "summarization"
  else if strContains (strLower userInput) "action" ||
          strContains (strLower userInput) "do this" then
    "action_generation"
  else if ["context", "docs", "document", "retrieve", "reference"].any
      (fun x => strContains (strLower userInput) x) then
    "retrieval_augmented"
  else if ["how", "why", "what", "who", "where"].any
      (fun x => strContains (strLower userInput) x) then
    "question_answering"
  else if strEndsWith userInput "?" then
    "question_answering"
  else
    "classic_completion"

/-! ## Prompt composer (`Prompt`, prompt.py) -/

/-- The `Prompt` class: an ordered sequence of text segments joined by a
separator (the engine always uses the default separator `"\n"`). -/
structure Prompt where
  segments : List String
  sep : String := "\n"

/-- The `Prompt.__init__` constructor: a non-empty base string becomes the
single initial segment, an empty base yields no segments. -/
def Prompt.ofBase (base : String) : Prompt :=
  { segments := if base = "" then [] else [base] }

/-- The `Prompt.append` method. -/
def Prompt.appendSeg (p : Prompt) (part : String) : Prompt :=
  { p with segments := p.segments ++ [part] }

/-- The `Prompt.__str__` / `as_string` rendering: empty segments are
dropped (`filter(None, ...)`) and the rest joined with the separator. -/
def Prompt.asString (p : Prompt) : String :=
  joinSep p.sep (p.segments.filter (fun s => !(s == "")))

/-! ## Template registry (prototypes.py) -/

/-- The `prompt_prototype_factory` helper: build the labelled blocks, join
them with newlines, seed a `Prompt` from the joined base. -/
def promptPrototypeFactory (description systemMessage instructions : String) : Prompt :=
  let segments :=
    (if description ≠ "" then ["[TASK DESCRIPTION]\n" ++ description] else []) ++
    (if systemMessage ≠ "" then ["[SYSTEM]\n" ++ systemMessage] else []) ++
    (if instructions ≠ "" then ["[INSTRUCTIONS]\n" ++ instructions] else [])
  Prompt.ofBase (joinSep "\n" segments)

/-- Factory `get_classic_completion_prompt`. -/
def getClassicCompletionPrompt (_ : String) : Prompt :=
  promptPrototypeFactory
    "Freeform completion of text based on user input."
    ("You are an intelligent assistant that thinks step-by-step. " ++
     "Always consider what tools, data sources, and other resources are available in the current context " ++
     "and how to use them effectively to produce the best possible answer.")
    ("Let\x27s approach this step by step:\n" ++
     "1. First, analyze the user\x27s request and identify key components\n" ++
     "2. Think through the logical steps needed to address the request\n" ++
     "3. Consider any relevant context or constraints\n" ++
     "4. Formulate a clear and helpful response\n" ++
     "Put your reasoning in the \x27reasoning\x27 field and your response in the \x27conversation\x27 field of the JSON output.")

/-- Factory `get_retrieval_augmented_prompt`. -/
def getRetrievalAugmentedPrompt (_ : String) : Prompt :=
  promptPrototypeFactory
    "Answer with retrieved context from knowledge base or documentation."
    ("You use external document retrieval to ground your answers and you are aware of all retrieval and " ++
     "knowledge resources that are available in the current context. Think through your reasoning step-by-step, " ++
     "explicitly considering which documents, tools, or APIs to use and why.")
    ("Approach this systematically:\n" ++
     "1. Identify the key information needed from the retrieved context\n" ++
     "2. Analyze how the retrieved documents relate to the question\n" ++
     "3. Extract relevant facts and determine their reliability\n" ++
     "4. Synthesize the information into a coherent answer\n" ++
     "5. Cite sources and provide references for all claims\n" ++
     "Put your reasoning process in the \x27reasoning\x27 field and your final answer in the \x27conversation\x27 field of the JSON output.")

/-- Factory `get_question_answering_prompt`. -/
def getQuestionAnsweringPrompt (_ : String) : Prompt :=
  promptPrototypeFactory
    "Question answering based on available data."
    ("You answer questions concisely and accurately by reasoning through them step-by-step. " ++
     "Always inspect what contextual resources (retrieved documents, past interactions, tools, and APIs) are " ++
     "available, and use them when they can improve the quality or reliability of the answer.")
    ("Think through this question carefully:\n" ++
     "1. What specifically is being asked?\n" ++
     "2. What information do I have that\x27s relevant?\n" ++
     "3. What logical steps lead to the answer?\n" ++
     "4. Am I certain about this answer based on available data?\n" ++
     "If the answer is not known, explain your reasoning and state \x27I don\x27t know based on current data.\x27\n" ++
     "Put your thought process in the \x27reasoning\x27 field and your final answer in the \x27conversation\x27 field of the JSON output.")

/-- Factory `get_action_generation_prompt`. -/
def getActionGenerationPrompt (_ : String) : Prompt :=
  promptPrototypeFactory
    "Generate a structured action for an API call."
    ("Generate JSON to represent the user\x27s intended action. Think through the requirements step-by-step, and " ++
     "pay attention to what backend services, APIs, tools, and other resources are available so that the action " ++
     "is executable in the current environment.")
    ("Let\x27s break down the drink request:\n" ++
     "1. Analyze what the user wants:\n" ++
     "   - Specific drink by name? → action_type: \x27create_drink\x27 (populate drink_recipe)\n" ++
     "   - Describe preferences/mood? → action_type: \x27suggest_drink\x27 (populate suggest_drink)\n" ++
     "   - Ask about ingredients? → action_type: \x27search_drink\x27 (populate drink_recipe)\n\n" ++
     "2. For CREATE_DRINK or SUGGEST_DRINK, provide COMPLETE recipe:\n" ++
     "   - Name: The cocktail name\n" ++
     "   - Description: Brief description of the drink\x27s character\n" ++
     "   - Ingredients: Each ingredient MUST have:\n" ++
     "     * name: Ingredient name (e.g., \x27Bourbon\x27, \x27Simple Syrup\x27)\n" ++
     "     * amount: Numeric amount (e.g., 60, 2, 0.5)\n" ++
     "     * unit: Unit of measurement (e.g., \x27ml\x27, \x27oz\x27, \x27dash\x27, \x27tsp\x27)\n" ++
     "     * color: Hex color code (e.g., \x27#D4A574\x27 for bourbon, \x27#FFD700\x27 for simple syrup)\n" ++
     "   - Instructions: Array of step-by-step preparation instructions\n" ++
     "   - Glass type: MUST be one of: \x27zombie glass\x27, \x27cocktail glass\x27, \x27rocks glass\x27, \x27hurricane glass\x27, \x27pint glass\x27, \x27seidel glass\x27, \x27shot glass\x27, \x27highball glass\x27, \x27margarita glass\x27, \x27martini glass\x27\n" ++
     "   - Garnish: MUST be one of: \x27lemon\x27, \x27lime\x27, \x27orange\x27, \x27cherry\x27, \x27olive\x27, \x27salt_rim\x27, \x27mint\x27, or null for no garnish\n" ++
     "   - Has ice: true/false\n\n" ++
     "3. Respond in character as Arthur the bartender in the \x27conversation\x27 field\n\n" ++
     "4. Put your reasoning about which action_type to use in the \x27reasoning\x27 field\n\n" ++
     "CRITICAL: NEVER leave action_type as null. ALWAYS choose create_drink, suggest_drink, or search_drink.")

/-- Factory `get_summarization_prompt`. -/
def getSummarizationPrompt (_ : String) : Prompt :=
  promptPrototypeFactory
    "Summarize user-provided content."
    ("You summarize and rephrase user input for clarity by thinking through the content systematically. " ++
     "When helpful, take into account any available context, metadata, or other resources that can make the " ++
     "summary more accurate or useful.")
    ("Follow this systematic approach:\n" ++
     "1. Read through the entire content to understand the main topic\n" ++
     "2. Identify the key points, themes, and critical information\n" ++
     "3. Determine what details are essential vs. supplementary\n" ++
     "4. Consider the intended audience and purpose\n" ++
     "5. Synthesize the information into a concise summary\n" ++
     "Put your analysis of key points in the \x27reasoning\x27 field, then provide a concise summary in the \x27conversation\x27 field of the JSON output.")

/-- Factory `get_chat_style_prompt`. -/
def getChatStylePrompt (_ : String) : Prompt :=
  promptPrototypeFactory
    "Multi-turn conversational assistant."
    ("Respond in a friendly, helpful chat style. Think through your responses step-by-step. " ++
     "Continuously consider what contextual resources (conversation history, tools, APIs, and retrieved data) " ++
     "are available and how to use them to provide the most helpful, grounded reply.")
    ("Let\x27s think through this conversation carefully:\n" ++
     "1. What is the user asking or trying to accomplish?\n" ++
     "2. What context from previous turns is relevant?\n" ++
     "3. Are there any ambiguities that need clarification?\n" ++
     "4. What would be the most helpful response?\n" ++
     "5. How can I respond in a friendly and clear manner?\n" ++
     "Put your analysis in the \x27reasoning\x27 field, then provide a helpful and contextually appropriate response in the \x27conversation\x27 field of the JSON output.")

/-- The `PROMPT_PROTOTYPE_REGISTRY` dict: template name to factory. -/
def promptPrototypeRegistry : List (String × (String → Prompt)) :=
  [("classic_completion", getClassicCompletionPrompt),
   ("retrieval_augmented", getRetrievalAugmentedPrompt),
   ("question_answering", getQuestionAnsweringPrompt),
   ("action_generation", getActionGenerationPrompt),
   ("summarization", getSummarizationPrompt),
   ("chat_style", getChatStylePrompt)]

/-- The registered template names, in registry order. -/
def registryNames : List String :=
  promptPrototypeRegistry.map (fun p => p.1)

/-- The template names the default selector can return. -/
def selectorTemplateNames : List String :=
  ["action_generation", "summarization", "retrieval_augmented",
   "question_answering", "classic_completion"]

/-- Model of `get_prompt_prototype`: dictionary lookup; `none` models the
`ValueError` ("No prompt prototype registered under name ...") raised when
the name is absent from the registry. -/
def getPromptPrototype (prototypeName : String) (userInput : String) : Option Prompt :=
  match promptPrototypeRegistry.find? (fun p => p.1 == prototypeName) with
  | none => none
  | some p => some (p.2 userInput)

/-! ## LLM invocation adapter (`AgenticEngine._invoke_llm`, engine.py) -/

/-- Errors the adapter can surface. `malformedOutput` is the spec's
`MalformedOutputError`, raised in the source as `json.JSONDecodeError` from
`json.loads(response.text)`; `schemaValidation` is the spec's
`SchemaValidationError`, raised in the source as a pydantic
`ValidationError` from `response_schema(**result)`; `unboundLocalConfig`
is the `UnboundLocalError` on the local name `config`, which in the source
is only assigned in the structured branch yet read in the unstructured
branch. -/
inductive LLMError where
  | malformedOutput
  | schemaValidation
  | unboundLocalConfig
deriving DecidableEq

/-- Structured branch of `_invoke_llm` (a `response_schema` was supplied).
The provider reply is given as the outcome of `json.loads` on its text:
`none` when the text is not parseable JSON (the stdlib parser raising), and
`some j` for the decoded value. A decoded value is validated against
`AgentActionSchema`; only a fully validated object is returned. -/
def invokeLLMStructured (parsedResponse : Option Json) :
    Except LLMError AgentActionSchema :=
  match parsedResponse with
  | none => .error .malformedOutput
  | some j =>
    match validateAgentAction j with
    | none => .error .schemaValidation
    | some a => .ok a

/-- Unstructured branch of `_invoke_llm` (no `response_schema`). The source
passes `config=config` to the provider call, but `config` is a local name
assigned only in the structured branch, so the branch raises
`UnboundLocalError` before any provider call is made and never returns the
response text. The `model` and `prompt` arguments are retained from the
source signature; they are never reached. -/
def invokeLLMUnstructured (model : String) (prompt : String) :
    Except LLMError String :=
  .error .unboundLocalConfig

/-! ## Supabase vector search (`SupabaseVectorDatabaseSearch.__call__`, rag.py) -/

/-- One retrieval result (`RAGRetrievalResult`). The `metadata` field is
always set from `item.get("metadata", {}) or {}`, and the select statement
never fetches a `metadata` column, so it is constantly the empty dict. -/
structure RAGRetrievalResult where
  content : String
  metadata : List (String × String)
  score : Option Rat
deriving DecidableEq

/-- Outcome of reading the `embedding` column of one row.  `missing` models
a falsy raw value (`None`, `""`, `[]`: the row is skipped), `malformed`
models `ast.literal_eval` or the array conversion raising (the exception
escapes to the outer handler), and `vec` a successfully parsed vector. -/
inductive StoredEmbedding where
  | missing
  | malformed
  | vec (v : List Rat)
deriving DecidableEq

/-- One row returned by the supabase select (`id, content, embedding`). A
`none` content models a SQL `NULL` (`item.get("content", "") or ""`). -/
structure SupabaseRow where
  id : Nat
  content : Option String
  embedding : StoredEmbedding

/-- Outcome of `query_builder.execute()` on one table: either the call
raised (`fetchError`, caught only by the outer handler) or it returned a
row list (`response.data or []`). -/
inductive TableFetch where
  | fetchError
  | rows (rs : List SupabaseRow)

/-- Sum of squares of a vector; it is zero exactly when the L2 norm
`np.linalg.norm` is zero, which is the `doc_norm == 0` skip condition. -/
def normSq (v : List Rat) : Rat :=
  (v.map (fun x => x * x)).sum

/-- Default for the `max_candidates_per_table` kwarg:
`max(top_k * 10, top_k)`. -/
def defaultMaxCandidates (topK : Nat) : Nat :=
  max (topK * 10) topK

/-- Processing of one fetched row. `cos` is sklearn's `cosine_similarity`
kernel, passed in as a parameter (third-party code); it is fed the raw
query and document vectors — the source's normalisation steps divide by the
positive L2 norms, which leaves the mathematical cosine value unchanged, so
they are absorbed into the kernel parameter. The zero-norm guards of the
source are kept exactly. `Except` threads the `ast.literal_eval` exception
of a malformed stored vector to the outer handler. -/
def rowCandidate (cos : List Rat → List Rat → Rat) (q : List Rat)
    (row : SupabaseRow) : Except Unit (Option RAGRetrievalResult) :=
  match row.embedding with
  | .missing => .ok none
  | .malformed => .error ()
  | .vec v =>
    if v = [] then .ok none
    else if normSq v = 0 then .ok none
    else .ok (some ⟨row.content.getD "", [], some (cos q v)⟩)

/-- Candidates collected from the rows of one table, in row order. -/
def rowsCandidates (cos : List Rat → List Rat → Rat) (q : List Rat) :
    List SupabaseRow → Except Unit (List RAGRetrievalResult)
  | [] => .ok []
  | row :: rest =>
    match rowCandidate cos q row with
    | .error e => .error e
    | .ok c? =>
      match rowsCandidates cos q rest with
      | .error e => .error e
      | .ok cs =>
        match c? with
        | none => .ok cs
        | some c => .ok (c :: cs)

/-- Candidates from one table: a fetch error propagates; otherwise at most
`maxC` rows are considered (the `.limit(max_candidates_per_table)` clause). -/
def tableCandidates (cos : List Rat → List Rat → Rat) (q : List Rat)
    (maxC : Nat) : TableFetch → Except Unit (List RAGRetrievalResult)
  | .fetchError => .error ()
  | .rows rs => rowsCandidates cos q (rs.take maxC)

/-- Candidates pooled across all tables in order (`all_results`). -/
def allCandidates (cos : List Rat → List Rat → Rat) (q : List Rat)
    (maxC : Nat) : List TableFetch → Except Unit (List RAGRetrievalResult)
  | [] => .ok []
  | t :: ts =>
    match tableCandidates cos q maxC t with
    | .error e => .error e
    | .ok cs =>
      match allCandidates cos q maxC ts with
      | .error e => .error e
      | .ok rest => .ok (cs ++ rest)

/-- Outcome of `self._generate_embedding(query)`: the call raised, or it
returned a value (`none` models `None`; `some []` models a size-0 array). -/
inductive QueryEmbedOutcome where
  | embedError
  | value (v : Option (List Rat))

/-- Sort key of a candidate: `x.score if x.score is not None else 0.0`. -/
def keyScore (r : RAGRetrievalResult) : Rat :=
  r.score.getD 0

/-- The descending-score order used by `all_results.sort(key=..., reverse=True)`. -/
def scoreGE (a b : RAGRetrievalResult) : Prop :=
  keyScore b ≤ keyScore a

instance : DecidableRel scoreGE :=
  fun a b => inferInstanceAs (Decidable (keyScore b ≤ keyScore a))

instance : IsTotal RAGRetrievalResult scoreGE :=
  ⟨fun a b => le_total (keyScore b) (keyScore a)⟩

instance : IsTrans RAGRetrievalResult scoreGE :=
  ⟨fun _ _ _ h1 h2 => le_trans h2 h1⟩

/-- Model of `SupabaseVectorDatabaseSearch.__call__`. A degenerate query
embedding returns no results; any exception anywhere in the body (embedding
call, table fetch, malformed stored vector) is caught by the enclosing
`try`/`except` and converted to no results; otherwise the pooled candidates
are sorted by descending score (Python's stable sort, modelled by the
stable `insertionSort`) and the first `top_k` are returned. The `user_id`
argument is accepted and never used. -/
def supabaseVectorSearch (cos : List Rat → List Rat → Rat)
    (queryEmbedding : QueryEmbedOutcome) (tables : List TableFetch)
    (userId : Option String) (topK : Nat) (maxCandidatesPerTable : Option Nat) :
    List RAGRetrievalResult :=
  match queryEmbedding with
  | .embedError => []
  | .value none => []
  | .value (some q) =>
    if q = [] then []
    else
      let maxC := maxCandidatesPerTable.getD (defaultMaxCandidates topK)
      match allCandidates cos q maxC tables with
      | .error _ => []
      | .ok cands =>
        if cands = [] then []
        else (List.insertionSort scoreGE cands).take topK

/-! ## Engine entrypoint (`AgenticEngine.run`, engine.py) -/

/-- The `[FEW-SHOT EXAMPLES]` body segments: `Example {idx}` numbering
starts at 1 (`enumerate(few_shot_examples, 1)`). -/
def fewShotSegments (i : Nat) : List String → List String
  | [] => []
  | e :: rest => ("\n\nExample " ++ toString i ++ ":\n" ++ e) :: fewShotSegments (i + 1) rest

/-- The few-shot block appended by `run`, present only when the loaded
example list is non-empty. -/
def fewShotBlock (fewShot : List String) : List String :=
  if fewShot.isEmpty then []
  else "\n\n[FEW-SHOT EXAMPLES]" :: (fewShotSegments 1 fewShot ++ ["\n[END EXAMPLES]\n"])

/-- The RAG context block appended by `run`: the header is appended before
the `if rag_enabled:` statement and the footer after it, so both markers
are appended on every call; only the `[RETRIEVED]` chunk segments between
them depend on the retrieval outcome. -/
def contextSegments (chunks : List String) : List String :=
  "\n\n[CONTEXT FETCHED FROM ONLINE RAG DATABASE]" ::
    (chunks.map (fun c => "\n[RETRIEVED]\n" ++ c) ++
     ["\n[END CONTEXT FETCHED FROM ONLINE RAG DATABASE]\n"])

/-- The full segment sequence `run` builds by successive `prompt.append`
calls on the selected prototype. -/
def runSegments (base : Prompt) (fewShot : List String) (chunks : List String)
    (userInput : String) : List String :=
  base.segments ++ fewShotBlock fewShot ++ contextSegments chunks ++
    ["\n[CONVERSATION]\n" ++ userInput]

/-- The dictionary `run` returns. The completion carries the structured
`_invoke_llm` outcome. -/
structure RunResult where
  template_name : String
  prompt : String
  completion : Except LLMError AgentActionSchema
  retrieved_chunks : List String

/-- Model of `AgenticEngine.run`. The file-system few-shot loader is
supplied as the already-loaded `fewShot` list; the RAG strategy `rag` and
the completion provider `providerResponse` (prompt text to `json.loads`
outcome of its reply) are supplied as functions. `none` models the
`ValueError` escaping from `get_prompt_prototype` for an unregistered
template name. `retrieved_chunks` stays empty when `rag_enabled` is false,
and retrieval is never conditioned on the selected template name. -/
def runEngine (userInput : String) (fewShot : List String)
    (rag : String → Option String → Nat → List RAGRetrievalResult)
    (providerResponse : String → Option Json)
    (userId : Option String) (topK : Nat) (ragEnabled : Bool) :
    Option RunResult :=
  let templateName := defaultSelector userInput
  match getPromptPrototype templateName userInput with
  | none => none
  | some base =>
    let chunks :=
      if ragEnabled then (rag userInput userId topK).map (fun d => d.content) else []
    let promptStr :=
      Prompt.asString { segments := runSegments base fewShot chunks userInput }
    some ⟨templateName, promptStr,
          invokeLLMStructured (providerResponse promptStr), chunks⟩

/-! ## Validity predicates and concrete fixtures -/

/-- The `Field` constraints of `DrinkIngredient`, stated directly as a
property of a constructed value. -/
def IngredientValid (i : DrinkIngredient) : Prop :=
  1 ≤ i.name.data.length ∧ i.name.data.length ≤ 100 ∧
  mkRat 1 100 ≤ i.amount ∧ isHexColor i.color = true ∧
  1 ≤ i.unit.data.length ∧ i.unit.data.length ≤ 20

/-- The `Field` constraints of `DrinkRecipeSchema`, stated directly. -/
def RecipeValid (r : DrinkRecipeSchema) : Prop :=
  1 ≤ r.name.data.length ∧ r.name.data.length ≤ 100 ∧
  r.description.data.length ≤ 500 ∧
  r.ingredients ≠ [] ∧ (∀ i ∈ r.ingredients, IngredientValid i) ∧
  r.instructions ≠ [] ∧
  (∀ g, r.garnish = some g → g.data.length ≤ 100)

/-- The `Field` constraints of `AgentActionSchema`, stated directly. -/
def ActionSchemaValid (a : AgentActionSchema) : Prop :=
  0 ≤ a.confidence ∧ a.confidence ≤ 1 ∧
  a.reasoning.data.length ≤ 1000 ∧ a.conversation.data.length ≤ 1000 ∧
  (∀ r, a.drink_recipe = some r → RecipeValid r) ∧
  (∀ r, a.suggest_drink = some r → RecipeValid r)

/-- The fixed glass-type enumeration from the spec and from the
`action_generation` prompt-instruction text ("Glass type: MUST be one of").
It appears only in prompt text, never as a pydantic constraint. -/
def specGlassTypes : List String :=
  ["zombie glass", "cocktail glass", "rocks glass", "hurricane glass",
   "pint glass", "seidel glass", "shot glass", "highball glass",
   "margarita glass", "martini glass"]

/-- The garnish enumeration from the spec and from the `action_generation`
prompt-instruction text ("Garnish: MUST be one of"). It appears only in
prompt text, never as a pydantic constraint. -/
def specGarnishes : List String :=
  ["lemon", "lime", "orange", "cherry", "olive", "salt_rim", "mint"]

/-- A decoded recipe object whose other fields satisfy every constraint,
parameterised by the `glass_type` and `garnish` strings. -/
def mkBasicRecipeJson (glass garnish : String) : Json :=
  .obj [("name", .str "Test Drink"),
        ("description", .str "A test drink."),
        ("ingredients", .arr [.obj [("name", .str "Gin"), ("amount", .num 60),
                                    ("color", .str "#ffffff"), ("unit", .str "ml")]]),
        ("instructions", .arr [.str "Stir well."]),
        ("glass_type", .str glass),
        ("garnish", .str garnish)]

/-- A similarity kernel fixture: score a document vector by its head entry. -/
def ragCosFixture : List Rat → List Rat → Rat :=
  fun _ v => v.headD 0

/-- A fetched table with two well-formed rows scoring 10 and 9 under
`ragCosFixture`. -/
def ragTableOne : TableFetch :=
  .rows [⟨1, some "a", .vec [10]⟩, ⟨2, some "b", .vec [9]⟩]

/-- A fetched table with one well-formed row scoring 1 under
`ragCosFixture`. -/
def ragTableTwo : TableFetch :=
  .rows [⟨3, some "c", .vec [1]⟩]

/-- A retrieval strategy fixture returning nothing. -/
def noRagStrategy : String → Option String → Nat → List RAGRetrievalResult :=
  fun _ _ _ => []

/-- A completion-provider fixture whose reply is not parseable JSON. -/
def noProvider : String → Option Json :=
  fun _ => none

/-- A placeholder `RunResult` for extracting fields from an optional run
outcome at concrete inputs. -/
def defaultRunResult : RunResult :=
  ⟨"", "", .error .malformedOutput, []⟩

/-! ## Theorems -/

/-- C4: for every input string containing one of the drink-creation verbs
"make me", "create", "mix", "build", "recommend", "i want", "i\x27d like"
(checked on the lowercased input, hence case-insensitively and regardless
of a trailing question mark), the default selector returns
`action_generation`; in particular it does so on "What can you make me?",
because the verb rule is evaluated before the question rule. -/
theorem selector_drink_verbs (s : String)
    (h : ∃ kw ∈ (["make me", "create", "mix", "build", "recommend",
                  "i want", "i\x27d like"] : List String),
          strContains (strLower s) kw = true) :
    defaultSelector s = "action_generation" ∧
    defaultSelector "What can you make me?" = "action_generation" := by
  constructor
  · have hany : drinkKeywords.any (fun k => strContains (strLower s) k) = true := by
      obtain ⟨kw, hmem, hc⟩ := h
      refine List.any_eq_true.mpr ⟨kw, ?_, hc⟩
      fin_cases hmem <;> decide
    simp [defaultSelector, hany]
  · decide

/-- C4 witness: the theorem applied at the concrete input
"What can you make me?", whose lowercase form contains "make me". -/
theorem selector_drink_verbs_witness :
    defaultSelector "What can you make me?" = "action_generation" :=
  (selector_drink_verbs "What can you make me?"
    ⟨"make me", by decide, by decide⟩).1

/-- C5: flattening a string reasoning value returns it unchanged; flattening
a dict of strings concatenates the values in key-sorted order (so both
key orders of step1/step2 give "a b"); and re-flattening an already-flat
string is a no-op. -/
theorem flatten_reasoning_flat (s : String) :
    flatten_reasoning (.str s) = s ∧
    flatten_reasoning (.obj [("step1", .str "a"), ("step2", .str "b")]) = "a b" ∧
    flatten_reasoning (.obj [("step2", .str "b"), ("step1", .str "a")]) = "a b" ∧
    flatten_reasoning (.str (flatten_reasoning (.str s))) =
      flatten_reasoning (.str s) := by
  exact ⟨rfl, by decide, by decide, rfl⟩

/-- C9: the unconstrained branch of `_invoke_llm` never returns the
provider's response text: for every model and prompt it stops with the
`UnboundLocalError` on the local name `config`, which the source reads in
this branch but assigns only in the structured branch. This contradicts the
spec's contract (send prompt as-is with the persona as system instruction,
return raw text) and the method's own docstring. -/
theorem invoke_llm_unstructured_crashes (model prompt : String) :
    invokeLLMUnstructured model prompt = .error .unboundLocalConfig :=
  rfl

/-- C10: retrieval output is independent of the `user_id` argument — the
parameter is accepted but never used to filter or alter the search. -/
theorem rag_user_id_independent (cos : List Rat → List Rat → Rat)
    (qe : QueryEmbedOutcome) (tables : List TableFetch)
    (topK : Nat) (maxC : Option Nat) (u1 u2 : Option String) :
    supabaseVectorSearch cos qe tables u1 topK maxC =
      supabaseVectorSearch cos qe tables u2 topK maxC :=
  rfl

/-- Soundness of ingredient validation: a returned object satisfies every
`Field` constraint. -/
theorem validateIngredient_sound {j : Json} {i : DrinkIngredient}
    (h : validateIngredient j = some i) : IngredientValid i := by
  unfold validateIngredient at h
  repeat' split at h
  all_goals try exact Option.noConfusion h
  cases h
  simp only [IngredientValid]
  assumption

/-- Soundness of the ingredient-list validation. -/
theorem validateIngredients_sound {js : List Json} {is : List DrinkIngredient}
    (h : validateIngredients js = some is) : ∀ i ∈ is, IngredientValid i := by
  induction js generalizing is with
  | nil =>
    unfold validateIngredients at h
    cases h
    intro i hi
    exact absurd hi (List.not_mem_nil i)
  | cons j rest ih =>
    unfold validateIngredients at h
    split at h
    · rename_i i0 is0 h1 h2
      cases h
      intro x hx
      rcases List.mem_cons.mp hx with hx | hx
      · subst hx; exact validateIngredient_sound h1
      · exact ih h2 x hx
    · exact Option.noConfusion h

/-- Soundness of the garnish field: any accepted explicit garnish string has
at most 100 characters. -/
theorem garnishField_sound {f : List (String × Json)} {g : Option String}
    (h : garnishField f = some g) : ∀ s, g = some s → s.data.length ≤ 100 := by
  unfold garnishField at h
  repeat' split at h
  all_goals first
    | exact Option.noConfusion h
    | (cases h; intro s hs;
       first
         | exact Option.noConfusion hs
         | (cases hs; assumption))

/-- Soundness of recipe validation: a returned object satisfies every
`Field` constraint of `DrinkRecipeSchema`. -/
theorem validateRecipe_sound {j : Json} {r : DrinkRecipeSchema}
    (h : validateRecipe j = some r) : RecipeValid r := by
  unfold validateRecipe at h
  repeat' split at h
  all_goals try exact Option.noConfusion h
  cases h
  simp only [RecipeValid]
  rename_i hing hinstr hglass hgarn hice hcond
  obtain ⟨h1, h2, h3, h4, h5⟩ := hcond
  exact ⟨h1, h2, h3, h4, validateIngredients_sound hing, h5, garnishField_sound hgarn⟩

/-- Soundness of the optional-recipe fields. -/
theorem optRecipeField_sound {f : List (String × Json)} {k : String}
    {r? : Option DrinkRecipeSchema} (h : optRecipeField f k = some r?) :
    ∀ rec, r? = some rec → RecipeValid rec := by
  unfold optRecipeField at h
  repeat' split at h
  all_goals first
    | exact Option.noConfusion h
    | (cases h; intro rec hrec;
       first
         | exact Option.noConfusion hrec
         | (cases hrec; exact validateRecipe_sound (by assumption)))

/-- Soundness of the full Action Schema validation. -/
theorem validateAgentAction_sound {j : Json} {a : AgentActionSchema}
    (h : validateAgentAction j = some a) : ActionSchemaValid a := by
  unfold validateAgentAction at h
  repeat' split at h
  all_goals try exact Option.noConfusion h
  cases h
  simp only [ActionSchemaValid]
  rename_i hrec hsug hcond
  obtain ⟨h1, h2, h3, h4⟩ := hcond
  exact ⟨h1, h2, h3, h4, optRecipeField_sound hrec, optRecipeField_sound hsug⟩

/-- C1: in structured mode, a provider response whose text is not parseable
JSON makes the adapter stop with the `MalformedOutputError`-class failure
and return nothing, and for every provider response the caller receives
either a fully validated `AgentActionSchema` (satisfying every schema
constraint) or an error — never a partially-populated or structurally
invalid object. -/
theorem invoke_llm_structured_all_or_nothing (parsed : Option Json) :
    (parsed = none → invokeLLMStructured parsed = .error .malformedOutput) ∧
    (∀ a, invokeLLMStructured parsed = .ok a → ActionSchemaValid a) := by
  constructor
  · intro hp; subst hp; rfl
  · intro a ha
    unfold invokeLLMStructured at ha
    repeat' split at ha
    all_goals try exact Except.noConfusion ha
    cases ha
    exact validateAgentAction_sound (by assumption)

/-- C1 witness: at the concrete non-JSON provider reply (parse outcome
`none`), the adapter yields the malformed-output error. -/
theorem invoke_llm_structured_all_or_nothing_witness :
    invokeLLMStructured none = .error .malformedOutput :=
  (invoke_llm_structured_all_or_nothing none).1 rfl

/-- Every retrieval outcome is either empty or the descending-sorted pooled
candidate list truncated to `top_k`. -/
theorem supabaseVectorSearch_shape (cos : List Rat → List Rat → Rat)
    (qe : QueryEmbedOutcome) (tables : List TableFetch) (uid : Option String)
    (topK : Nat) (maxC : Option Nat) :
    supabaseVectorSearch cos qe tables uid topK maxC = [] ∨
    ∃ cands, supabaseVectorSearch cos qe tables uid topK maxC =
      (List.insertionSort scoreGE cands).take topK := by
  unfold supabaseVectorSearch
  cases qe with
  | embedError => exact Or.inl rfl
  | value v =>
    cases v with
    | none => exact Or.inl rfl
    | some q =>
      dsimp only
      by_cases hq : q = []
      · rw [if_pos hq]; exact Or.inl rfl
      · rw [if_neg hq]
        cases hac : allCandidates cos q (maxC.getD (defaultMaxCandidates topK)) tables with
        | error e => simp [hac]
        | ok cands =>
          by_cases hc : cands = []
          · simp [hac, hc]
          · right
            refine ⟨cands, ?_⟩
            simp [hac, hc]

/-- C2: for every query embedding, every non-negative `top_k`, and every
knowledge-table configuration, retrieval returns at most `top_k` results
sorted by descending score, ranked globally across the pooled tables; the
concrete instance shows a single table supplying all `top_k` results even
though another table has candidates. -/
theorem rag_retrieve_topk_global :
    (∀ cos qe tables uid topK maxC,
      (supabaseVectorSearch cos qe tables uid topK maxC).length ≤ topK ∧
      List.Sorted scoreGE (supabaseVectorSearch cos qe tables uid topK maxC)) ∧
    supabaseVectorSearch ragCosFixture (.value (some [1]))
        [ragTableOne, ragTableTwo] none 2 none =
      [⟨"a", [], some 10⟩, ⟨"b", [], some 9⟩] := by
  constructor
  · intro cos qe tables uid topK maxC
    rcases supabaseVectorSearch_shape cos qe tables uid topK maxC with hemp | ⟨cands, hc⟩
    · rw [hemp]; exact ⟨Nat.zero_le _, List.sorted_nil⟩
    · rw [hc]
      exact ⟨List.length_take_le _ _,
        List.Pairwise.sublist (List.take_sublist _ _)
          (List.sorted_insertionSort scoreGE cands)⟩
  · norm_num [supabaseVectorSearch, allCandidates, tableCandidates, rowsCandidates,
      rowCandidate, ragTableOne, ragTableTwo, ragCosFixture, normSq,
      defaultMaxCandidates, scoreGE, keyScore, List.insertionSort, List.orderedInsert]
    intro h
    exact absurd h (List.cons_ne_nil _ _)

/-- A malformed stored vector anywhere in a row list makes the whole row
pass raise (the exception reaches the outer handler). -/
theorem rowsCandidates_malformed {cos : List Rat → List Rat → Rat} {q : List Rat}
    {rs : List SupabaseRow} (h : ∃ r ∈ rs, r.embedding = .malformed) :
    rowsCandidates cos q rs = .error () := by
  induction rs with
  | nil =>
    obtain ⟨r, hr, _⟩ := h
    exact absurd hr (List.not_mem_nil r)
  | cons row rest ih =>
    obtain ⟨r, hr, hm⟩ := h
    rcases List.mem_cons.mp hr with hEq | hMem
    · subst hEq
      simp [rowsCandidates, rowCandidate, hm]
    · cases hrc : rowCandidate cos q row with
      | error e => cases e; simp [rowsCandidates, hrc]
      | ok c? => simp [rowsCandidates, hrc, ih ⟨r, hMem, hm⟩]

/-- A failing table fetch anywhere makes the whole candidate collection
raise. -/
theorem allCandidates_error_of_fetchError {cos : List Rat → List Rat → Rat}
    {q : List Rat} {maxC : Nat} {tables : List TableFetch}
    (h : TableFetch.fetchError ∈ tables) :
    allCandidates cos q maxC tables = .error () := by
  induction tables with
  | nil => exact absurd h (List.not_mem_nil _)
  | cons t ts ih =>
    rcases List.mem_cons.mp h with hEq | hMem
    · subst hEq; rfl
    · cases htc : tableCandidates cos q maxC t with
      | error e => cases e; simp [allCandidates, htc]
      | ok cs => simp [allCandidates, htc, ih hMem]

/-- A malformed stored vector within the fetched window of any table makes
the whole candidate collection raise. -/
theorem allCandidates_error_of_malformed {cos : List Rat → List Rat → Rat}
    {q : List Rat} {maxC : Nat} {tables : List TableFetch}
    {rows : List SupabaseRow} {row : SupabaseRow}
    (ht : TableFetch.rows rows ∈ tables) (hrow : row ∈ rows.take maxC)
    (hm : row.embedding = .malformed) :
    allCandidates cos q maxC tables = .error () := by
  induction tables with
  | nil => exact absurd ht (List.not_mem_nil _)
  | cons t ts ih =>
    rcases List.mem_cons.mp ht with hEq | hMem
    · subst hEq
      have hr : rowsCandidates cos q (rows.take maxC) = .error () :=
        rowsCandidates_malformed ⟨row, hrow, hm⟩
      simp [allCandidates, tableCandidates, hr]
    · cases htc : tableCandidates cos q maxC t with
      | error e => cases e; simp [allCandidates, htc]
      | ok cs => simp [allCandidates, htc, ih hMem]

/-- C3: a degenerate query embedding (embedding call raised, returned
`None`, or returned an empty vector), a failing store fetch on any table,
or a malformed stored vector in any fetched row each make retrieval return
the empty result sequence instead of propagating the error, so retrieval
failure never aborts the enclosing generation request. -/
theorem rag_failure_recovery (cos : List Rat → List Rat → Rat)
    (tables : List TableFetch) (uid : Option String) (topK : Nat)
    (maxC : Option Nat) :
    (∀ qe, qe = QueryEmbedOutcome.embedError ∨ qe = .value none ∨
        qe = .value (some []) →
      supabaseVectorSearch cos qe tables uid topK maxC = []) ∧
    (∀ q, TableFetch.fetchError ∈ tables →
      supabaseVectorSearch cos (.value (some q)) tables uid topK maxC = []) ∧
    (∀ q rows row, TableFetch.rows rows ∈ tables →
      row ∈ rows.take (maxC.getD (defaultMaxCandidates topK)) →
      row.embedding = .malformed →
      supabaseVectorSearch cos (.value (some q)) tables uid topK maxC = []) := by
  refine ⟨?_, ?_, ?_⟩
  · rintro qe (rfl | rfl | rfl) <;> rfl
  · intro q hfe
    by_cases hq : q = []
    · simp [supabaseVectorSearch, hq]
    · simp [supabaseVectorSearch, hq, allCandidates_error_of_fetchError hfe]
  · intro q rows row ht hrow hm
    by_cases hq : q = []
    · simp [supabaseVectorSearch, hq]
    · simp [supabaseVectorSearch, hq,
        allCandidates_error_of_malformed ht hrow hm]

/-- C3 witness: with a single table whose fetch raises, retrieval returns
the empty sequence. -/
theorem rag_failure_recovery_witness :
    supabaseVectorSearch ragCosFixture (.value (some [1]))
      [TableFetch.fetchError] none 5 none = [] :=
  (rag_failure_recovery ragCosFixture [TableFetch.fetchError] none 5 none).2.1
    [1] (List.mem_singleton.mpr rfl)

/-- Lookup in the prototype registry succeeds exactly for registered names. -/
theorem getPromptPrototype_isSome (name input : String) :
    (getPromptPrototype name input).isSome = true ↔ name ∈ registryNames := by
  unfold getPromptPrototype registryNames
  cases hfind : promptPrototypeRegistry.find? (fun p => p.1 == name) with
  | none =>
    simp only [Option.isSome_none]
    constructor
    · intro h; exact absurd h (by simp)
    · intro hmem
      obtain ⟨pr, hpr, hfst⟩ := List.mem_map.mp hmem
      have := List.find?_eq_none.mp hfind pr hpr
      rw [hfst] at this
      simp at this
  | some pr =>
    simp only [Option.isSome_some, true_iff]
    have hmem := List.mem_of_find?_eq_some hfind
    have hp := List.find?_some hfind
    have : pr.1 = name := by simpa using hp
    exact this ▸ List.mem_map.mpr ⟨pr, hmem, rfl⟩

/-- The default selector only ever returns one of five template names. -/
theorem defaultSelector_mem (s : String) :
    defaultSelector s ∈ selectorTemplateNames := by
  unfold defaultSelector
  repeat' split
  all_goals decide

/-- C8: template lookup fails exactly when the requested name is not in the
registry; every name the default selector can output has exactly one
registered descriptor; hence lookup never fails on a selector output. -/
theorem template_registry_total :
    (∀ name input, getPromptPrototype name input = none ↔ name ∉ registryNames) ∧
    (∀ name, name ∈ selectorTemplateNames → registryNames.count name = 1) ∧
    (∀ s input, (getPromptPrototype (defaultSelector s) input).isSome = true) := by
  refine ⟨?_, ?_, ?_⟩
  · intro name input
    rw [← getPromptPrototype_isSome name input]
    cases h : getPromptPrototype name input <;> simp [h]
  · intro name hmem
    simp only [selectorTemplateNames, List.mem_cons, List.not_mem_nil, or_false] at hmem
    rcases hmem with rfl | rfl | rfl | rfl | rfl <;> decide
  · intro s input
    rw [getPromptPrototype_isSome]
    have hmem := defaultSelector_mem s
    simp only [selectorTemplateNames, List.mem_cons, List.not_mem_nil, or_false] at hmem
    rcases hmem with h | h | h | h | h <;> rw [h] <;> decide

/-- C8 witness: the selector output `action_generation` has exactly one
registered descriptor. -/
theorem template_registry_total_witness :
    registryNames.count "action_generation" = 1 :=
  template_registry_total.2.1 "action_generation" (by decide)

/-- C7 counterexample: a decoded recipe whose `glass_type` ("teacup") and
`garnish` ("pickle") both lie outside the spec's enumerations still
validates successfully, because the pydantic model constrains neither field
to the enumerated values — refuting the claim that validation fails for
every out-of-enumeration glass type or garnish. -/
theorem recipe_enum_counterexample :
    (validateRecipe (mkBasicRecipeJson "teacup" "pickle")).isSome = true ∧
    specGlassTypes.contains "teacup" = false ∧
    specGarnishes.contains "pickle" = false := by
  refine ⟨?_, by decide, by decide⟩
  rfl

/-- C7 (amended): schema validation does not restrict `glass_type` or
`garnish` to the enumerations — any string `glass_type` is accepted, and
any string `garnish` of at most 100 characters is accepted; the
enumerations live only in the prompt-instruction text. -/
theorem recipe_accepts_any_glass_and_garnish :
    (∀ glass : String, validateRecipe (mkBasicRecipeJson glass "lemon") =
      some ⟨"Test Drink", "A test drink.", [⟨"Gin", 60, "#ffffff", "ml"⟩],
            ["Stir well."], glass, some "lemon", true⟩) ∧
    (∀ f garnish, jsonLookup f "garnish" = some (.str garnish) →
      garnish.data.length ≤ 100 → garnishField f = some (some garnish)) ∧
    (∀ f glass, jsonLookup f "glass_type" = some (.str glass) →
      glassTypeField f = some glass) := by
  refine ⟨?_, ?_, ?_⟩
  · intro glass; rfl
  · intro f garnish hlk hlen
    unfold garnishField
    rw [hlk]
    dsimp only
    rw [if_pos hlen]
  · intro f glass hlk
    unfold glassTypeField
    rw [hlk]

/-- C7 witness: the out-of-enumeration garnish "pickle" is accepted by the
garnish field validator. -/
theorem recipe_accepts_any_glass_and_garnish_witness :
    garnishField [("garnish", Json.str "pickle")] = some (some "pickle") :=
  recipe_accepts_any_glass_and_garnish.2.1 [("garnish", Json.str "pickle")]
    "pickle" rfl (by decide)

/-- Joining a list that ends in two fixed segments renders them at the very
end, separated by the separator. -/
theorem joinSep_append_pair (sep a b : String) (l : List String) :
    ∃ pre, joinSep sep (l ++ [a, b]) = pre ++ a ++ sep ++ b := by
  induction l with
  | nil => exact ⟨"", by simp [joinSep, String.append_assoc]⟩
  | cons x xs ih =>
    obtain ⟨pre, hp⟩ := ih
    cases xs with
    | nil =>
      refine ⟨x ++ sep, ?_⟩
      show joinSep sep (x :: a :: [b]) = x ++ sep ++ a ++ sep ++ b
      simp [joinSep, String.append_assoc]
    | cons y ys =>
      refine ⟨x ++ sep ++ pre, ?_⟩
      show joinSep sep (x :: ((y :: ys) ++ [a, b])) = x ++ sep ++ pre ++ a ++ sep ++ b
      have hstep : joinSep sep (x :: ((y :: ys) ++ [a, b])) =
          x ++ sep ++ joinSep sep ((y :: ys) ++ [a, b]) := rfl
      rw [hstep, hp]
      simp [String.append_assoc]

/-- The rendered run prompt always ends with the context-block footer
followed by the `[CONVERSATION]` block carrying the raw user input. -/
theorem runSegments_tail (base : Prompt) (fewShot chunks : List String)
    (userInput : String) :
    ∃ pre, Prompt.asString { segments := runSegments base fewShot chunks userInput } =
      pre ++ "\n[END CONTEXT FETCHED FROM ONLINE RAG DATABASE]\n" ++ "\n" ++
        ("\n[CONVERSATION]\n" ++ userInput) := by
  unfold Prompt.asString runSegments contextSegments
  have hlist : base.segments ++ fewShotBlock fewShot ++
      ("\n\n[CONTEXT FETCHED FROM ONLINE RAG DATABASE]" ::
        (chunks.map (fun c => "\n[RETRIEVED]\n" ++ c) ++
          ["\n[END CONTEXT FETCHED FROM ONLINE RAG DATABASE]\n"])) ++
      ["\n[CONVERSATION]\n" ++ userInput] =
      (base.segments ++ fewShotBlock fewShot ++
        ("\n\n[CONTEXT FETCHED FROM ONLINE RAG DATABASE]" ::
          chunks.map (fun c => "\n[RETRIEVED]\n" ++ c))) ++
      ["\n[END CONTEXT FETCHED FROM ONLINE RAG DATABASE]\n",
       "\n[CONVERSATION]\n" ++ userInput] := by simp
  rw [hlist, List.filter_append]
  have hpair : List.filter (fun s => !(s == ""))
      ["\n[END CONTEXT FETCHED FROM ONLINE RAG DATABASE]\n",
       "\n[CONVERSATION]\n" ++ userInput] =
      ["\n[END CONTEXT FETCHED FROM ONLINE RAG DATABASE]\n",
       "\n[CONVERSATION]\n" ++ userInput] := rfl
  rw [hpair]
  exact joinSep_append_pair "\n" _ _ _

/-- C6 (amended): `run` appends the retrieved chunks to the prompt and
reports them iff `rag_enabled` (retrieval is unconditional on the selected
template name — the property holds for every user input), the
`[CONVERSATION]` block with the raw user input comes after the context
block, and the context-block markers themselves are rendered on every call
— including when `rag_enabled` is false, when the block is merely empty. -/
theorem run_prompt_structure
    (userInput : String) (fewShot : List String)
    (rag : String → Option String → Nat → List RAGRetrievalResult)
    (providerResponse : String → Option Json)
    (uid : Option String) (topK : Nat) (ragEnabled : Bool) (r : RunResult)
    (h : runEngine userInput fewShot rag providerResponse uid topK ragEnabled = some r) :
    (ragEnabled = false → r.retrieved_chunks = []) ∧
    (ragEnabled = true →
      r.retrieved_chunks = (rag userInput uid topK).map (fun d => d.content)) ∧
    (∃ base, getPromptPrototype (defaultSelector userInput) userInput = some base ∧
      r.prompt = Prompt.asString
        { segments := runSegments base fewShot r.retrieved_chunks userInput }) ∧
    (∃ pre, r.prompt =
      pre ++ "\n[END CONTEXT FETCHED FROM ONLINE RAG DATABASE]\n" ++ "\n" ++
        ("\n[CONVERSATION]\n" ++ userInput)) := by
  unfold runEngine at h
  dsimp only at h
  cases hbase : getPromptPrototype (defaultSelector userInput) userInput with
  | none => rw [hbase] at h; exact Option.noConfusion h
  | some base =>
    rw [hbase] at h
    dsimp only at h
    cases h
    refine ⟨?_, ?_, ⟨base, rfl, rfl⟩, ?_⟩
    · intro he; subst he; rfl
    · intro he; subst he; rfl
    · exact runSegments_tail base fewShot _ userInput

set_option maxRecDepth 100000 in
/-- C6 counterexample: on a concrete call with `rag_enabled = false` the
rendered prompt still contains the `[CONTEXT FETCHED FROM ONLINE RAG
DATABASE]` marker (with no retrieved chunks inside), refuting the claim
that no context block is appended when RAG is disabled — the source
appends the header and footer outside the `if rag_enabled:` statement. -/
theorem run_context_block_counterexample :
    ((runEngine "hi" [] noRagStrategy noProvider none 5 false).getD
        defaultRunResult).retrieved_chunks = [] ∧
    strContains ((runEngine "hi" [] noRagStrategy noProvider none 5 false).getD
        defaultRunResult).prompt
      "[CONTEXT FETCHED FROM ONLINE RAG DATABASE]" = true := by
  exact ⟨rfl, by decide⟩

set_option maxRecDepth 100000 in
/-- C6 witness: the structure theorem applied at a concrete disabled-RAG
call yields the empty chunk report. -/
theorem run_prompt_structure_witness :
    ((runEngine "hi" [] noRagStrategy noProvider none 5 false).getD
        defaultRunResult).retrieved_chunks = [] :=
  (run_prompt_structure "hi" [] noRagStrategy noProvider none 5 false
      ((runEngine "hi" [] noRagStrategy noProvider none 5 false).getD defaultRunResult)
      rfl).1 rfl
